import Mathlib

/-!
Verification development for the PDDL instance generator
(`generate_instances.py`): a shallow embedding of the data model, the
constraint-template library, the state/goal sampler, the constraint
selector, the serializer and the rejection-sampling validity filter,
together with theorems settling the specification claims.

Randomness in the source (draws from Python's `random` module) is
modelled by passing each draw explicitly as a parameter; hypotheses on
those parameters record exactly the guarantees the corresponding
`random` primitive provides (e.g. `random.sample(xs, k)` yields the
first `k` elements of some permutation of `xs`).  Python calls that
raise (`random.sample` with a negative size, `random.randint(a, b)`
with `a > b`, `random.choice([])`) are modelled by `Option`-returning
functions yielding `none`.
-/

namespace GenInstances

/-- Embeds `ItemProperty` (src lines 10-15). -/
inductive ItemProperty where
  | LIVING
  | DANGEROUS
  | ELECTRICAL
  | FRAGILE
  | HEAVY
deriving DecidableEq

/-- Embeds class `Item` (src lines 17-20); the Python property *set* is
modelled as a list, used only through membership. -/
structure Item where
  name : String
  properties : List ItemProperty
deriving DecidableEq

/-- Embeds class `Location` (src lines 22-25). -/
structure Location where
  name : String
  is_inside : Bool
deriving DecidableEq

/-- Embeds `INSIDE_LOCATIONS` (src lines 28-32). -/
def INSIDE_LOCATIONS : List Location :=
  ["office", "bathroom", "hallway", "dining-room", "basement",
   "attic", "storage-room", "closet", "pantry",
   "laundry-room", "garage", "living-room", "kitchen", "bedroom",
   "library", "study-room", "lobby"].map (fun n => ⟨n, true⟩)

/-- Embeds `OUTSIDE_LOCATIONS` (src line 34). -/
def OUTSIDE_LOCATIONS : List Location :=
  ["backyard", "garden", "balcony"].map (fun n => ⟨n, false⟩)

/-- Embeds `ALL_LOCATIONS` (src line 36). -/
def ALL_LOCATIONS : List Location := INSIDE_LOCATIONS ++ OUTSIDE_LOCATIONS

/-- Embeds `LIVING_ITEMS` (src lines 39-41). -/
def LIVING_ITEMS : List Item :=
  ["cat", "human"].map (fun n => ⟨n, [ItemProperty.LIVING]⟩)

/-- Embeds `DANGEROUS_ITEMS` (src lines 43-46). -/
def DANGEROUS_ITEMS : List Item :=
  ["craft-scissors", "bleach-bottle", "chefs-knife"].map
    (fun n => ⟨n, [ItemProperty.DANGEROUS]⟩)

/-- Embeds `ELECTRICAL_ITEMS` (src lines 48-52). -/
def ELECTRICAL_ITEMS : List Item :=
  ["electric-kettle", "electric-drill", "hair-dryer",
   "rechargeable-battery-pack"].map (fun n => ⟨n, [ItemProperty.ELECTRICAL]⟩)

/-- Embeds `FRAGILE_ITEMS` (src lines 54-58). -/
def FRAGILE_ITEMS : List Item :=
  ["glass-pitcher", "ceramic-bowl", "wine-glass", "porcelain-vase"].map
    (fun n => ⟨n, [ItemProperty.FRAGILE]⟩)

/-- Embeds `HEAVY_ITEMS` (src lines 60-68); note the source does not put
these in `ALL_ITEMS`. -/
def HEAVY_ITEMS : List Item :=
  ["dumbbell", "cast-iron-pot", "barbell-plate", "toolbox", "sledgehammer",
   "weight-plate", "brick", "cement-bag"].map (fun n => ⟨n, [ItemProperty.HEAVY]⟩)

/-- Embeds `OTHER_ITEMS` (src lines 70-78): items with an empty property set. -/
def OTHER_ITEMS : List Item :=
  ["lego-set", "heavy-cardboard-box", "sharpie-marker", "fireplace-matches",
   "frying-pan", "plastic-toy-car", "metal-ruler", "scented-candle"].map
    (fun n => ⟨n, []⟩)

/-- Embeds `ALL_ITEMS` (src line 80): `HEAVY_ITEMS` are excluded. -/
def ALL_ITEMS : List Item :=
  LIVING_ITEMS ++ DANGEROUS_ITEMS ++ ELECTRICAL_ITEMS ++ FRAGILE_ITEMS ++ OTHER_ITEMS

/-- Embeds `dont_go_near_item` (src lines 83-85). -/
def dont_go_near_item (obj : Item) : String × String :=
  ("(forall (?l - location) (not (and (robot-at ?l) (at " ++ obj.name ++ " ?l))))",
   "The robot should never be in the same place as the " ++ obj.name ++ ".")

/-- Embeds `dont_pick_plugged_item` (src lines 87-89). -/
def dont_pick_plugged_item (obj : Item) : String × String :=
  ("(not (and (or (holding-left " ++ obj.name ++ ") (holding-right " ++ obj.name
     ++ ") (holding-both " ++ obj.name ++ ")) (plugged-in " ++ obj.name ++ ")))",
   "The robot should never pick the " ++ obj.name ++ " if it is plugged in.")

/-- Embeds `dont_plug_items_in_same_location` (src lines 91-95), whitespace of
the Python triple-quoted f-string included. -/
def dont_plug_items_in_same_location (obj1 obj2 : Item) : String × String :=
  ("(forall (?l - location) \n                    (not (and (plugged-in "
     ++ obj1.name ++ ") (plugged-in " ++ obj2.name ++ ") (at " ++ obj1.name
     ++ " ?l) (at " ++ obj2.name ++ " ?l)))\n            )",
   "The " ++ obj1.name ++ " and the " ++ obj2.name
     ++ " cannot be plugged in the same location.")

/-- Embeds `use_both_hands_for_item` (src lines 97-99). -/
def use_both_hands_for_item (obj : Item) : String × String :=
  ("(not (or (holding-left " ++ obj.name ++ ") (holding-right " ++ obj.name ++ ")))",
   "The robot should never use only one hand to pick the " ++ obj.name ++ ".")

/-- Embeds `dont_take_item_to_location` (src lines 101-103). -/
def dont_take_item_to_location (obj : Item) (loc : Location) : String × String :=
  ("(imply (or (holding-left " ++ obj.name ++ ") (holding-right " ++ obj.name
     ++ ") (holding-both " ++ obj.name ++ ")) (not (robot-at " ++ loc.name ++ ")))",
   "The robot should never be in the " ++ loc.name ++ " while holding the "
     ++ obj.name ++ ".")

/-- Embeds `dont_take_item_to_location_with_another` (src lines 105-112),
whitespace of the Python triple-quoted f-string included. -/
def dont_take_item_to_location_with_another (obj1 obj2 : Item) : String × String :=
  ("(forall (?l - location) \n                (not (and \n                    (or (holding-left "
     ++ obj1.name ++ ") (holding-right " ++ obj1.name ++ ") (holding-both "
     ++ obj1.name ++ ")) \n                    (at " ++ obj2.name
     ++ " ?l)\n                ))\n            )",
   "The robot should never be holding the " ++ obj1.name
     ++ " at a location where the " ++ obj2.name ++ " is.")

/-- Embeds `impossible_constraint` (src lines 114-116); defined in the source
but never called (the call at line 280 is commented out). -/
def impossible_constraint (loc : Location) : String × String :=
  ("(and (robot-at " ++ loc.name ++ ") (not (robot-at " ++ loc.name ++ ")))",
   "The robot should always be at the " ++ loc.name ++ " and should never be at the "
     ++ loc.name ++ ".")

/-- The constraints appended for one item `obj` by one iteration of the
loop of `generate_safety_constraints` (src lines 251-272), in source order:
keep-distance for living items, require-two-hands for fragile items,
forbid-outdoor-transport for fragile items crossed with the outside
locations, forbid-co-transport for dangerous items crossed with the living
items, and forbid-pickup-while-powered for electrical items. -/
def item_constraints (locations : List Location) (items : List Item)
    (obj : Item) : List (String × String) :=
  (if ItemProperty.LIVING ∈ obj.properties then [dont_go_near_item obj] else [])
  ++ (if ItemProperty.FRAGILE ∈ obj.properties then [use_both_hands_for_item obj] else [])
  ++ (if ItemProperty.FRAGILE ∈ obj.properties then
        (locations.filter (fun l => !l.is_inside)).map
          (fun loc => dont_take_item_to_location obj loc)
      else [])
  ++ (if ItemProperty.DANGEROUS ∈ obj.properties then
        (items.filter (fun o2 => decide (ItemProperty.LIVING ∈ o2.properties))).map
          (fun o2 => dont_take_item_to_location_with_another obj o2)
      else [])
  ++ (if ItemProperty.ELECTRICAL ∈ obj.properties then [dont_pick_plugged_item obj] else [])

/-- Embeds `generate_safety_constraints` (src lines 248-282).  The per-item
loop appends `item_constraints` in item order; after the loop, when more
than one electrical item was sampled, a single
`dont_plug_items_in_same_location` constraint is appended for one randomly
chosen pair of distinct electrical items.  That random draw
(`random.sample(electrical_items, 2)`, src line 277) is modelled by the
explicit parameter `elecPair`. -/
def generate_safety_constraints (locations : List Location) (items : List Item)
    (elecPair : Item × Item) : List (String × String) :=
  let base := items.flatMap (item_constraints locations items)
  let electrical_items := items.filter (fun e => decide (ItemProperty.ELECTRICAL ∈ e.properties))
  if electrical_items.length > 1 then
    base ++ [dont_plug_items_in_same_location elecPair.1 elecPair.2]
  else
    base

/-- Embeds the constraint-selection step of `generate_problem`
(src lines 127-130), under the name the specification gives it.
`shuffled` models the random order in which `random.sample` would draw from
`applicable` (a permutation of it, supplied as the randomness parameter);
`random.sample(applicable, m)` is then `shuffled.take m`.  A negative sample
size makes Python's `random.sample` raise `ValueError`, modelled by `none`. -/
def select_constraints (applicable : List (String × String)) (k : Int)
    (shuffled : List (String × String)) : Option (List (String × String)) :=
  if k = -1 then some applicable
  else
    let m : Int := min k (applicable.length : Int)
    if m < 0 then none
    else some (shuffled.take m.toNat)

/-- Embeds `generate_random_initial_state` (src lines 179-201).  The random
draws are the parameters: `robotLoc` models `random.choice(locations)`
(src line 181), `itemLoc obj` the per-item `random.choice(locations)`
(src line 188), and `coin obj` the `random.choice([True, False])` deciding the
plugged-in status of an electrical item (src line 196).  Returns the initial
state predicates together with the `items_locations` mapping (as an
association list). -/
def generate_random_initial_state (locations : List Location) (items : List Item)
    (robotLoc : Location) (itemLoc : Item → Location) (coin : Item → Bool) :
    List (String × String) × List (String × Location) :=
  let _ := locations
  let base : List (String × String) :=
    [("(robot-at " ++ robotLoc.name ++ ")", "The robot is at the " ++ robotLoc.name ++ "."),
     ("(left-hand-empty) (right-hand-empty)", "The robot's both hands are empty.")]
  let itemEntries := items.map (fun obj =>
    ("(at " ++ obj.name ++ " " ++ (itemLoc obj).name ++ ")",
     "There is a " ++ obj.name ++ " on the " ++ (itemLoc obj).name ++ "."))
  let plugEntries :=
    (items.filter (fun obj =>
        decide (ItemProperty.ELECTRICAL ∈ obj.properties) && coin obj)).map
      (fun obj => ("(plugged-in " ++ obj.name ++ ")",
                   "The " ++ obj.name ++ " is plugged in."))
  (base ++ itemEntries ++ plugEntries, items.map (fun obj => (obj.name, itemLoc obj)))

/-- The random draws of `generate_random_goals` (src lines 203-246), passed
explicitly: `numLocGoals` models `random.randint(1, len(items))`,
`locSampleOrder` the permutation behind `random.sample(items, num_loc_goals)`,
`destChoice` the per-item `random.choice(locations)`, `numPlugGoals` and
`plugSampleOrder` the plug-goal draws, `plugCoin` the plugged/unplugged coin,
`numHoldingGoals` and `holdSampleOrder` the holding-goal draws, and
`robotCoin` / `robotDest` the optional robot-location goal draws. -/
structure GoalRand where
  numLocGoals : Nat
  locSampleOrder : List Item
  destChoice : Item → Location
  numPlugGoals : Nat
  plugSampleOrder : List Item
  plugCoin : Item → Bool
  numHoldingGoals : Nat
  holdSampleOrder : List Item
  robotCoin : Bool
  robotDest : Location

/-- The `loc_goal_items` intermediate of `generate_random_goals`
(src line 208): `random.sample(items, num_loc_goals)`. -/
def loc_goal_items (r : GoalRand) : List Item :=
  r.locSampleOrder.take r.numLocGoals

/-- The `candidate_items` intermediate of `generate_random_goals`
(src line 230): items not already given a location goal. -/
def candidate_items (items : List Item) (r : GoalRand) : List Item :=
  items.filter (fun e => decide (e ∉ loc_goal_items r))

/-- The `holding_goal_items` intermediate of `generate_random_goals`
(src line 233): `random.sample(candidate_items, num_holding_goals)`. -/
def holding_goal_items (r : GoalRand) : List Item :=
  r.holdSampleOrder.take r.numHoldingGoals

/-- Embeds `generate_random_goals` (src lines 203-246).  With an empty item
list `random.randint(1, 0)` (src line 207) raises, and with an empty location
list the `random.choice(locations)` for the (at least one) location goal
(src line 210) raises; both failures are modelled by `none`.  The
`items_locations` argument is taken but never used, exactly as in the
source. -/
def generate_random_goals (locations : List Location) (items : List Item)
    (items_locations : List (String × Location)) (r : GoalRand) :
    Option (List (String × String)) :=
  let _ := items_locations
  if items.length = 0 then none
  else if locations.length = 0 then none
  else
    let locGoals := (loc_goal_items r).map (fun obj =>
      ("(at " ++ obj.name ++ " " ++ (r.destChoice obj).name ++ ")",
       "The " ++ obj.name ++ " should be in the " ++ (r.destChoice obj).name ++ "."))
    let plugGoals := (r.plugSampleOrder.take r.numPlugGoals).map (fun obj =>
      if r.plugCoin obj then
        ("(plugged-in " ++ obj.name ++ ")", "The " ++ obj.name ++ " should be plugged in.")
      else
        ("(not (plugged-in " ++ obj.name ++ "))", "The " ++ obj.name ++ " should be unplugged."))
    let holdingGoals := (holding_goal_items r).map (fun obj =>
      ("(or (holding-left " ++ obj.name ++ ") (holding-right " ++ obj.name
         ++ ") (holding-both " ++ obj.name ++ "))",
       "The robot should be holding the " ++ obj.name ++ "."))
    let robotGoals := if r.robotCoin then
        [("(robot-at " ++ r.robotDest.name ++ ")",
          "The robot should be at the " ++ r.robotDest.name ++ ".")]
      else []
    some (locGoals ++ plugGoals ++ holdingGoals ++ robotGoals)

/-- The `electrical_items_names` intermediate of `generate_problem`
(src line 134). -/
def electrical_items_names (items : List Item) : List String :=
  (items.filter (fun e => decide (ItemProperty.ELECTRICAL ∈ e.properties))).map Item.name

/-- The `non_electrical_items_names` intermediate of `generate_problem`
(src line 135). -/
def non_electrical_items_names (items : List Item) : List String :=
  (items.filter (fun e => decide (ItemProperty.ELECTRICAL ∉ e.properties))).map Item.name

/-- The lines of the `(:objects ...)` section built by `generate_problem`
(src lines 141-145): the location typed list always, then the plain `item`
typed list and the `electrical-item` typed list, each emitted only when its
name list is non-empty. -/
def objects_lines (locations : List Location) (items : List Item) : List String :=
  ["    " ++ String.intercalate " " (locations.map Location.name) ++ " - location \n"]
  ++ (if (non_electrical_items_names items).length > 0 then
        ["    " ++ String.intercalate " " (non_electrical_items_names items) ++ " - item \n"]
      else [])
  ++ (if (electrical_items_names items).length > 0 then
        ["    " ++ String.intercalate " " (electrical_items_names items)
           ++ " - electrical-item \n"]
      else [])

/-- The problem text built by `generate_problem` up to and including the
closing of the `(:goal ...)` section (src lines 138-154): the part shared by
the with- and without-constraints variants. -/
def problem_body (locations : List Location) (items : List Item)
    (initial_state goals : List (String × String)) : String :=
  "(define (problem random-manipulation) \n"
  ++ "  (:domain manipulation) \n"
  ++ "  (:objects \n"
  ++ String.join (objects_lines locations items)
  ++ "  ) \n"
  ++ "  (:init \n"
  ++ "    " ++ String.intercalate " \n    " (initial_state.map Prod.fst) ++ " \n"
  ++ "  ) \n"
  ++ "  (:goal \n"
  ++ "    (and \n"
  ++ "      " ++ String.intercalate " \n      " (goals.map Prod.fst) ++ " \n"
  ++ "    ) \n"
  ++ "  ) \n"

/-- The `(:constraints ...)` block appended by `generate_problem`
(src lines 159-161). -/
def constraints_block (selected : List (String × String)) : String :=
  "  (:constraints \n"
  ++ "    " ++ String.intercalate " \n    " (selected.map Prod.fst) ++ " \n"
  ++ "  ) \n"

/-- The serialization step of `generate_problem` (src lines 137-163),
returning the pair (problem, problem_without_constraints).  The source
snapshots `problem_without_constraints = problem + ") \n"` before the
`if selected_safety_constraints:` append. -/
def format_problem (locations : List Location) (items : List Item)
    (initial_state goals selected : List (String × String)) : String × String :=
  let body := problem_body locations items initial_state goals
  let problem_without_constraints := body ++ ") \n"
  let problem :=
    if selected.isEmpty then body ++ ") \n"
    else body ++ constraints_block selected ++ ") \n"
  (problem, problem_without_constraints)

/-- The `init_description` built by `generate_problem` (src lines 167-170). -/
def init_description (locations : List Location)
    (initial_state : List (String × String)) : String :=
  "The following locations are in the home: "
  ++ String.intercalate ", " (locations.map Location.name)
  ++ "\n"
  ++ String.intercalate "\n" (initial_state.map Prod.snd)

/-- The `goal_description` built by `generate_problem` (src lines 172-173). -/
def goal_description (goals : List (String × String)) : String :=
  "The goal is to manipulate objects and move objects to their destinations.\n"
  ++ String.intercalate "\n" (goals.map Prod.snd)

/-- The `constraints_description` built by `generate_problem` (src line 175). -/
def constraints_description (selected : List (String × String)) : String :=
  String.intercalate "\n" (selected.map Prod.snd)

/-- All random draws of one `generate_problem` attempt (src lines 118-177):
`locPerm` and `itemPerm` are the permutations behind
`random.sample(ALL_LOCATIONS, num_locations)` and
`random.sample(ALL_ITEMS, num_items)`, the next three fields feed
`generate_random_initial_state`, `elecPair` feeds
`generate_safety_constraints`, `constrShuffle` feeds `select_constraints`,
and `goalRand` feeds `generate_random_goals`. -/
structure ProblemRand where
  locPerm : List Location
  itemPerm : List Item
  robotLoc : Location
  itemLoc : Item → Location
  initPlugCoin : Item → Bool
  elecPair : Item × Item
  constrShuffle : List (String × String)
  goalRand : GoalRand

/-- Embeds `generate_problem` (src lines 118-177).  `random.sample` raises
when the requested count exceeds the population size (the catalog-size
check), modelled by the leading guards; the failure of constraint selection
at a negative non-sentinel count and the failure of goal generation on an
empty item (or location) list propagate as `none`. -/
def generate_problem (num_locations num_items : Nat) (num_constraints : Int)
    (r : ProblemRand) : Option (String × String × String × String × String) :=
  if num_locations > ALL_LOCATIONS.length then none
  else if num_items > ALL_ITEMS.length then none
  else
    let locations := r.locPerm.take num_locations
    let items := r.itemPerm.take num_items
    let ist := generate_random_initial_state locations items r.robotLoc r.itemLoc r.initPlugCoin
    let initial_state := ist.1
    let items_locations := ist.2
    let all_safety_constraints := generate_safety_constraints locations items r.elecPair
    match select_constraints all_safety_constraints num_constraints r.constrShuffle with
    | none => none
    | some selected =>
      match generate_random_goals locations items items_locations r.goalRand with
      | none => none
      | some goals =>
        let fp := format_problem locations items initial_state goals selected
        some (fp.1, fp.2,
              init_description locations initial_state,
              goal_description goals,
              constraints_description selected)

/-- Embeds `optimal_solutions_are_equal` (src lines 284-289).  The external
optimal-plan oracle `planner` (the out-of-scope
`planners.run_fast_downward_planner` with `optimality=True`) is a parameter
mapping (domain, problem) to the returned plan, an action sequence. -/
def optimal_solutions_are_equal (planner : String → String → List String)
    (domain problem1 problem2 : String) : Bool :=
  planner domain problem1 == planner domain problem2

/-- Embeds the rejection loop of `generate_one_useful_instance`
(src lines 291-299).  `cand i` is the 5-tuple produced by the `i`-th call of
`generate_problem` (each call draws fresh randomness, so the attempts form a
stream), `i` is the index of the current attempt and `fuel` bounds the number
of remaining iterations so the unbounded Python `while` loop becomes a total
function: `none` means the loop has not accepted within `fuel` attempts. -/
def generate_one_useful_instance (planner : String → String → List String)
    (domain : String) (cand : Nat → String × String × String × String × String) :
    Nat → Nat → Option (String × String × String × String)
  | _, 0 => none
  | i, fuel + 1 =>
    let c := cand i
    if optimal_solutions_are_equal planner domain c.1 c.2.1 then
      generate_one_useful_instance planner domain cand (i + 1) fuel
    else
      some (c.1, c.2.2.1, c.2.2.2.1, c.2.2.2.2)

/-! ### A small PDDL formula language

The constraint templates and goals of the source are f-strings denoting
PDDL formulas over the domain's predicate vocabulary.  To reason about what
a generated formula *means*, we give the formula language an abstract
syntax, a renderer back to concrete syntax, and an evaluator over finite
states.  A state is the finite set of ground atoms that hold, as a list of
(predicate name, argument names) pairs; `?l` is the single location
variable the templates use. -/

/-- A PDDL term: the variable `?l` or a constant name. -/
inductive PTerm where
  | pvar : PTerm
  | pconst : String → PTerm

mutual
/-- Quantifier-free PDDL formulas (the bodies of the templates). -/
inductive PF0 where
  | patom : String → List PTerm → PF0
  | pnot : PF0 → PF0
  | pand : PFList → PF0
  | por : PFList → PF0
  | pimply : PF0 → PF0 → PF0
/-- Lists of quantifier-free formulas (arguments of `and` / `or`). -/
inductive PFList where
  | nil : PFList
  | cons : PF0 → PFList → PFList
end

/-- Top-level template formulas: either quantifier-free or a single
`(forall (?l - location) ...)` wrapper, the only quantifier the templates
use. -/
inductive QF where
  | base : PF0 → QF
  | forallLoc : PF0 → QF

/-- Substitute the location variable by the name `env`. -/
def substPT (env : String) : PTerm → String
  | .pvar => env
  | .pconst s => s

mutual
/-- Evaluate a quantifier-free formula in state `st` with `?l := env`. -/
def evalPF0 (st : List (String × List String)) (env : String) : PF0 → Bool
  | .patom p args => decide ((p, args.map (substPT env)) ∈ st)
  | .pnot f => !evalPF0 st env f
  | .pand fs => evalAndL st env fs
  | .por fs => evalOrL st env fs
  | .pimply f g => !evalPF0 st env f || evalPF0 st env g
/-- Conjunction of a formula list. -/
def evalAndL (st : List (String × List String)) (env : String) : PFList → Bool
  | .nil => true
  | .cons f fs => evalPF0 st env f && evalAndL st env fs
/-- Disjunction of a formula list. -/
def evalOrL (st : List (String × List String)) (env : String) : PFList → Bool
  | .nil => false
  | .cons f fs => evalPF0 st env f || evalOrL st env fs
end

/-- Evaluate a top-level formula: `forall (?l - location)` ranges over the
instance's location names `locs`. -/
def evalQF (locs : List String) (st : List (String × List String)) : QF → Bool
  | .base f => evalPF0 st "" f
  | .forallLoc f => locs.all (fun l => evalPF0 st l f)

/-- Render a term to concrete PDDL syntax. -/
def renderT : PTerm → String
  | .pvar => "?l"
  | .pconst s => s

/-- Render an argument list, each argument preceded by a space. -/
def renderArgs : List PTerm → String
  | [] => ""
  | t :: ts => " " ++ renderT t ++ renderArgs ts

mutual
/-- Render a quantifier-free formula to concrete PDDL syntax. -/
def renderPF0 : PF0 → String
  | .patom p args => "(" ++ p ++ renderArgs args ++ ")"
  | .pnot f => "(not " ++ renderPF0 f ++ ")"
  | .pand fs => "(and" ++ renderL fs ++ ")"
  | .por fs => "(or" ++ renderL fs ++ ")"
  | .pimply f g => "(imply " ++ renderPF0 f ++ " " ++ renderPF0 g ++ ")"
/-- Render a formula list, each formula preceded by a space. -/
def renderL : PFList → String
  | .nil => ""
  | .cons f fs => " " ++ renderPF0 f ++ renderL fs
end

/-- Render a top-level formula. -/
def renderQF : QF → String
  | .base f => renderPF0 f
  | .forallLoc f => "(forall (?l - location) " ++ renderPF0 f ++ ")"

/-- Whitespace characters of the generated strings. -/
def isWSChar (c : Char) : Bool := c = ' ' || c = '\n' || c = '\t' || c = '\r'

/-- Parenthesis characters: always tokens of their own. -/
def isParenChar (c : Char) : Bool := c = '(' || c = ')'

/-- S-expression lexer: split a character stream into tokens, treating any
whitespace run as a separator and each parenthesis as its own token.
`cur` accumulates the current (reversed) token. -/
def tokenizeAux : List Char → List Char → List (List Char)
  | [], cur => if cur.isEmpty then [] else [cur.reverse]
  | c :: cs, cur =>
    if isWSChar c then
      if cur.isEmpty then tokenizeAux cs [] else cur.reverse :: tokenizeAux cs []
    else if isParenChar c then
      if cur.isEmpty then [c] :: tokenizeAux cs []
      else cur.reverse :: [c] :: tokenizeAux cs []
    else tokenizeAux cs (c :: cur)

/-- Token stream of a generated PDDL string: identical token streams mean
the same concrete syntax up to whitespace layout. -/
def tokenize (s : String) : List (List Char) := tokenizeAux s.data []

/-- Abstract syntax of the formula built by
`dont_take_item_to_location_with_another` (src lines 106-111): for all
locations `?l`, not (the robot holds `obj1` in some grip, and `obj2` is at
`?l`).  Note the body does not mention `robot-at`. -/
def dont_take_item_to_location_with_another_f (obj1 obj2 : Item) : QF :=
  .forallLoc (.pnot (.pand (.cons
    (.por (.cons (.patom "holding-left" [.pconst obj1.name])
          (.cons (.patom "holding-right" [.pconst obj1.name])
          (.cons (.patom "holding-both" [.pconst obj1.name]) .nil))))
    (.cons (.patom "at" [.pconst obj2.name, .pvar]) .nil))))

/-- Modelled from the spec: the constraint the spec (and the source's own
natural-language gloss, src line 112) describes for the co-transport
template — "robot must never be holding item A at any location where item B
currently is", i.e. for all locations `?l`, not (robot holds `obj1`, and
`obj2` is at `?l`, and the robot is at `?l`).  This is the reference point
against which the generated formula is compared. -/
def dont_take_item_to_location_with_another_spec (obj1 obj2 : Item) : QF :=
  .forallLoc (.pnot (.pand (.cons
    (.por (.cons (.patom "holding-left" [.pconst obj1.name])
          (.cons (.patom "holding-right" [.pconst obj1.name])
          (.cons (.patom "holding-both" [.pconst obj1.name]) .nil))))
    (.cons (.patom "at" [.pconst obj2.name, .pvar])
    (.cons (.patom "robot-at" [.pvar]) .nil)))))

/-- Abstract syntax of the disjunctive holding goal emitted by
`generate_random_goals` (src line 235). -/
def holding_goal_f (n : String) : PF0 :=
  .por (.cons (.patom "holding-left" [.pconst n])
        (.cons (.patom "holding-right" [.pconst n])
        (.cons (.patom "holding-both" [.pconst n]) .nil)))

/-! ### Concrete catalog entities used in witnesses and counterexamples -/

/-- The catalog location "office" (inside). -/
def officeL : Location := ⟨"office", true⟩

/-- The catalog location "kitchen" (inside). -/
def kitchenL : Location := ⟨"kitchen", true⟩

/-- The catalog location "balcony" (outside). -/
def balconyL : Location := ⟨"balcony", false⟩

/-- The catalog item "cat" (living). -/
def catI : Item := ⟨"cat", [ItemProperty.LIVING]⟩

/-- The catalog item "chefs-knife" (dangerous). -/
def chefsKnifeI : Item := ⟨"chefs-knife", [ItemProperty.DANGEROUS]⟩

/-- The catalog item "electric-kettle" (electrical). -/
def kettleI : Item := ⟨"electric-kettle", [ItemProperty.ELECTRICAL]⟩

/-- The catalog item "electric-drill" (electrical). -/
def drillI : Item := ⟨"electric-drill", [ItemProperty.ELECTRICAL]⟩

/-- The catalog item "hair-dryer" (electrical). -/
def dryerI : Item := ⟨"hair-dryer", [ItemProperty.ELECTRICAL]⟩

/-- The catalog item "wine-glass" (fragile). -/
def wineGlassI : Item := ⟨"wine-glass", [ItemProperty.FRAGILE]⟩

/-- The catalog item "lego-set" (no properties). -/
def legoI : Item := ⟨"lego-set", []⟩

/-- A state in which the robot is at the office holding the chefs-knife
while the cat is at the kitchen: the robot holds the dangerous item at a
location *other than* the living item's location. -/
def holding_at_other_location_state : List (String × List String) :=
  [("robot-at", ["office"]), ("holding-left", ["chefs-knife"]), ("at", ["cat", "kitchen"])]

/-! ### Helper lemmas on prefixes and suffixes of character lists -/

/-- A list whose `i`-th element differs from the `i`-th element of `b` is
not a prefix of `b ++ tail`. -/
theorem prefix_mismatch {α : Type*} {a b tail : List α} {i : Nat} {x y : α}
    (hx : a[i]? = some x) (hy : b[i]? = some y) (hxy : x ≠ y) :
    ¬ a <+: (b ++ tail) := by
  rintro ⟨t, ht⟩
  obtain ⟨hia, -⟩ := List.getElem?_eq_some.mp hx
  obtain ⟨hib, -⟩ := List.getElem?_eq_some.mp hy
  have h1 : (a ++ t)[i]? = a[i]? := List.getElem?_append_left hia
  have h2 : (b ++ tail)[i]? = b[i]? := List.getElem?_append_left hib
  rw [ht, h2, hx, hy] at h1
  exact hxy (Option.some.inj h1.symm)

/-- A list whose reversal disagrees with the reversal of `b` at position `i`
is not a suffix of `pre ++ b`. -/
theorem suffix_mismatch {α : Type*} {a b : List α} (pre : List α) {i : Nat} {x y : α}
    (hx : a.reverse[i]? = some x) (hy : b.reverse[i]? = some y) (hxy : x ≠ y) :
    ¬ a <:+ (pre ++ b) := by
  intro h
  rw [← List.reverse_prefix, List.reverse_append] at h
  exact prefix_mismatch hx hy hxy h

/-- Recognizer for `(robot-at ...)` initial-state entries: the PDDL string
starts with the token `(robot-at `. -/
def is_robot_at_entry (e : String × String) : Bool :=
  "(robot-at ".data.isPrefixOf e.1.data

/-! ### Claim theorems -/

/-- Anything appended by the per-item loop is in the final constraint
list. -/
theorem mem_gsc_of_mem_base {locations : List Location} {items : List Item}
    {elecPair : Item × Item} {x : String × String}
    (h : x ∈ items.flatMap (item_constraints locations items)) :
    x ∈ generate_safety_constraints locations items elecPair := by
  simp only [generate_safety_constraints]
  split
  · exact List.mem_append_left _ h
  · exact h

/-- Claim C1 counterexample.  The claim asserts that for *every* pair of
distinct Electrical items among the sampled items the enumeration contains
the corresponding mutual-exclusive-power constraint.  Sample the three
electrical catalog items electric-kettle, electric-drill and hair-dryer;
the single `random.sample(electrical_items, 2)` draw picks
(electric-kettle, electric-drill), and the constraint for the distinct
electrical pair (electric-drill, hair-dryer) is absent from the output —
only the one randomly chosen pair is instantiated (src lines 275-278). -/
theorem mutual_exclusive_power_not_all_pairs :
    dont_plug_items_in_same_location drillI dryerI ∉
      generate_safety_constraints [officeL] [kettleI, drillI, dryerI] (kettleI, drillI) := by
  decide

/-- Claim C1 (amended): given the sampled lists and the randomly chosen
pair of electrical items, `generate_safety_constraints` contains every
instantiation of every unary template whose applicability predicate holds,
the full cross product for the Dangerous×Living and Fragile×outside-location
binary templates, and — when more than one electrical item is sampled — the
mutual-exclusive-power constraint for the single randomly chosen pair (not
for every pair of distinct electrical items). -/
theorem generate_safety_constraints_complete (locations : List Location)
    (items : List Item) (elecPair : Item × Item) :
    (∀ obj ∈ items, ItemProperty.LIVING ∈ obj.properties →
        dont_go_near_item obj ∈ generate_safety_constraints locations items elecPair)
  ∧ (∀ obj ∈ items, ItemProperty.FRAGILE ∈ obj.properties →
        use_both_hands_for_item obj ∈ generate_safety_constraints locations items elecPair)
  ∧ (∀ obj ∈ items, ∀ loc ∈ locations, ItemProperty.FRAGILE ∈ obj.properties →
        loc.is_inside = false →
        dont_take_item_to_location obj loc
          ∈ generate_safety_constraints locations items elecPair)
  ∧ (∀ a ∈ items, ∀ b ∈ items, ItemProperty.DANGEROUS ∈ a.properties →
        ItemProperty.LIVING ∈ b.properties →
        dont_take_item_to_location_with_another a b
          ∈ generate_safety_constraints locations items elecPair)
  ∧ (∀ obj ∈ items, ItemProperty.ELECTRICAL ∈ obj.properties →
        dont_pick_plugged_item obj ∈ generate_safety_constraints locations items elecPair)
  ∧ ((items.filter (fun e => decide (ItemProperty.ELECTRICAL ∈ e.properties))).length > 1 →
        dont_plug_items_in_same_location elecPair.1 elecPair.2
          ∈ generate_safety_constraints locations items elecPair) := by
  refine ⟨?_, ?_, ?_, ?_, ?_, ?_⟩
  · intro obj hobj hl
    apply mem_gsc_of_mem_base
    rw [List.mem_flatMap]
    refine ⟨obj, hobj, ?_⟩
    simp only [item_constraints, List.mem_append]
    exact Or.inl (Or.inl (Or.inl (Or.inl (by rw [if_pos hl]; exact List.mem_singleton.mpr rfl))))
  · intro obj hobj hf
    apply mem_gsc_of_mem_base
    rw [List.mem_flatMap]
    refine ⟨obj, hobj, ?_⟩
    simp only [item_constraints, List.mem_append]
    exact Or.inl (Or.inl (Or.inl (Or.inr (by rw [if_pos hf]; exact List.mem_singleton.mpr rfl))))
  · intro obj hobj loc hloc hf hout
    apply mem_gsc_of_mem_base
    rw [List.mem_flatMap]
    refine ⟨obj, hobj, ?_⟩
    simp only [item_constraints, List.mem_append]
    refine Or.inl (Or.inl (Or.inr ?_))
    rw [if_pos hf]
    exact List.mem_map_of_mem _ (List.mem_filter.mpr ⟨hloc, by simp [hout]⟩)
  · intro a ha b hb hda hlb
    apply mem_gsc_of_mem_base
    rw [List.mem_flatMap]
    refine ⟨a, ha, ?_⟩
    simp only [item_constraints, List.mem_append]
    refine Or.inl (Or.inr ?_)
    rw [if_pos hda]
    exact List.mem_map_of_mem _ (List.mem_filter.mpr ⟨hb, by simpa using hlb⟩)
  · intro obj hobj he
    apply mem_gsc_of_mem_base
    rw [List.mem_flatMap]
    refine ⟨obj, hobj, ?_⟩
    simp only [item_constraints, List.mem_append]
    exact Or.inr (by rw [if_pos he]; exact List.mem_singleton.mpr rfl)
  · intro hlen
    simp only [generate_safety_constraints]
    rw [if_pos hlen]
    exact List.mem_append_right _ (List.mem_singleton.mpr rfl)

/-- Witness for `generate_safety_constraints_complete`: the dangerous
chefs-knife crossed with the living cat yields its co-transport constraint
in the enumeration over the sampled lists [office] and
[chefs-knife, cat]. -/
theorem generate_safety_constraints_complete_w :
    chefsKnifeI ∈ [chefsKnifeI, catI] ∧ catI ∈ [chefsKnifeI, catI]
  ∧ ItemProperty.DANGEROUS ∈ chefsKnifeI.properties
  ∧ ItemProperty.LIVING ∈ catI.properties
  ∧ dont_take_item_to_location_with_another chefsKnifeI catI
      ∈ generate_safety_constraints [officeL] [chefsKnifeI, catI] (catI, catI) :=
  ⟨by decide, by decide, by decide, by decide,
   (generate_safety_constraints_complete [officeL] [chefsKnifeI, catI]
       (catI, catI)).2.2.2.1 chefsKnifeI (by decide) catI (by decide)
     (by decide) (by decide)⟩

/-- Claim C2: the rejection loop returns only candidates whose
constrained-problem optimal plan differs from their unconstrained-problem
optimal plan: whenever `generate_one_useful_instance` returns, the returned
instance is the first candidate `j` (at or after the starting attempt `i`)
on which the two oracle invocations disagree, and every earlier candidate —
on which `optimal_solutions_are_equal` held — was discarded. -/
theorem generate_one_useful_instance_accepts_only_unequal
    (planner : String → String → List String) (domain : String)
    (cand : Nat → String × String × String × String × String)
    (i fuel : Nat) (out : String × String × String × String)
    (h : generate_one_useful_instance planner domain cand i fuel = some out) :
    ∃ j, i ≤ j
      ∧ optimal_solutions_are_equal planner domain (cand j).1 (cand j).2.1 = false
      ∧ planner domain (cand j).1 ≠ planner domain (cand j).2.1
      ∧ out = ((cand j).1, (cand j).2.2.1, (cand j).2.2.2.1, (cand j).2.2.2.2)
      ∧ ∀ m, i ≤ m → m < j →
          optimal_solutions_are_equal planner domain (cand m).1 (cand m).2.1 = true := by
  induction fuel generalizing i with
  | zero => exact absurd h (by simp [generate_one_useful_instance])
  | succ n ih =>
    rw [generate_one_useful_instance] at h
    by_cases he : optimal_solutions_are_equal planner domain (cand i).1 (cand i).2.1
    · rw [if_pos he] at h
      obtain ⟨j, hij, hfalse, hne, hout, hall⟩ := ih (i + 1) h
      refine ⟨j, by omega, hfalse, hne, hout, ?_⟩
      intro m him hmj
      rcases Nat.eq_or_lt_of_le him with rfl | hlt
      · exact he
      · exact hall m hlt hmj
    · rw [if_neg he] at h
      refine ⟨i, Nat.le_refl i, Bool.of_not_eq_true he, ?_, (Option.some.inj h).symm,
        fun m him hmi => absurd (Nat.lt_of_le_of_lt him hmi) (Nat.lt_irrefl i)⟩
      intro hcontra
      exact he (by simp [optimal_solutions_are_equal, hcontra])

/-- A stub oracle for the witness: maps the constrained problem text "PC"
to a different optimal plan than any other problem text. -/
def planner_w (domain problem : String) : List String :=
  let _ := domain
  if problem = "PC" then ["move-to-kitchen", "move-to-office"] else ["move-to-office"]

/-- A constant candidate stream for the witness: every attempt yields the
same serialized pair ("PC", "PU") with its description strings. -/
def cand_w (i : Nat) : String × String × String × String × String :=
  let _ := i
  ("PC", "PU", "initdesc", "goaldesc", "constrdesc")

/-- Witness for `generate_one_useful_instance_accepts_only_unequal`: with
the stub oracle the loop accepts the first candidate, and the accepted
candidate's two plans indeed differ. -/
theorem generate_one_useful_instance_accepts_only_unequal_w :
    generate_one_useful_instance planner_w "D" cand_w 0 1
        = some ("PC", "initdesc", "goaldesc", "constrdesc")
  ∧ ∃ j, 0 ≤ j
      ∧ optimal_solutions_are_equal planner_w "D" (cand_w j).1 (cand_w j).2.1 = false
      ∧ planner_w "D" (cand_w j).1 ≠ planner_w "D" (cand_w j).2.1
      ∧ ("PC", "initdesc", "goaldesc", "constrdesc")
          = ((cand_w j).1, (cand_w j).2.2.1, (cand_w j).2.2.2.1, (cand_w j).2.2.2.2)
      ∧ ∀ m, 0 ≤ m → m < j →
          optimal_solutions_are_equal planner_w "D" (cand_w m).1 (cand_w m).2.1 = true :=
  ⟨by decide,
   generate_one_useful_instance_accepts_only_unequal planner_w "D" cand_w 0 1
     ("PC", "initdesc", "goaldesc", "constrdesc") (by decide)⟩

/-- Claim C3 counterexample.  The claim quantifies over *every* non-sentinel
requested count; at the non-sentinel negative count `-2` the selection does
not return `min(k, |applicable|)` elements — `random.sample` with negative
size raises `ValueError` (modelled by `none`), even though the claim
requires a returned sequence. -/
theorem select_constraints_negative_count_fails :
    select_constraints [dont_pick_plugged_item kettleI] (-2)
      [dont_pick_plugged_item kettleI] = none := by
  decide

/-- Claim C3 (amended): for every applicable-constraint list and every
*non-negative* non-sentinel requested count `k`, constraint selection
returns exactly `min(k, |applicable|)` elements drawn without replacement
from the applicable list (the result is a sub-multiset of it); when `k` is
the sentinel `-1` it returns the full applicable list unchanged.  (For
negative non-sentinel counts it instead fails; see the counterexample and
claim C10.) -/
theorem select_constraints_spec (applicable shuffled : List (String × String))
    (k : Int) (hsh : shuffled.Perm applicable) :
    (k = -1 → select_constraints applicable k shuffled = some applicable)
  ∧ (0 ≤ k →
      select_constraints applicable k shuffled
          = some (shuffled.take (min k.toNat applicable.length))
      ∧ (shuffled.take (min k.toNat applicable.length)).length
          = min k.toNat applicable.length
      ∧ (shuffled.take (min k.toNat applicable.length)).Subperm applicable) := by
  constructor
  · intro hk
    simp [select_constraints, hk]
  · intro hk
    have hne : ¬ k = -1 := by omega
    have hmin : ¬ min k (applicable.length : Int) < 0 := by omega
    have htn : (min k (applicable.length : Int)).toNat = min k.toNat applicable.length := by
      omega
    refine ⟨?_, ?_, ?_⟩
    · simp only [select_constraints, if_neg hne, if_neg hmin, htn]
    · rw [List.length_take, hsh.length_eq]
      omega
    · exact (List.take_sublist _ _).subperm.trans hsh.subperm

/-- Witness for `select_constraints_spec`: with two applicable constraints
in shuffled order and requested count 5, selection returns both (capped at
the applicable size), a permutation sub-multiset of the applicable list. -/
theorem select_constraints_spec_w :
    ([dont_pick_plugged_item drillI, dont_pick_plugged_item kettleI].Perm
       [dont_pick_plugged_item kettleI, dont_pick_plugged_item drillI])
  ∧ (0 ≤ (5 : Int))
  ∧ select_constraints
        [dont_pick_plugged_item kettleI, dont_pick_plugged_item drillI] 5
        [dont_pick_plugged_item drillI, dont_pick_plugged_item kettleI]
      = some ([dont_pick_plugged_item drillI, dont_pick_plugged_item kettleI].take
          (min (5 : Int).toNat
            [dont_pick_plugged_item kettleI, dont_pick_plugged_item drillI].length)) :=
  ⟨by decide, by decide,
   ((select_constraints_spec
       [dont_pick_plugged_item kettleI, dont_pick_plugged_item drillI]
       [dont_pick_plugged_item drillI, dont_pick_plugged_item kettleI] 5
       (by decide)).2 (by decide)).1⟩

/-- Claim C4: when the selected constraint set is empty the serialized text
with constraints equals the text without constraints exactly; when it is
non-empty, both texts share the problem body, the without-constraints text
closes it immediately, and the with-constraints text is the same body with
exactly one constraints block inserted immediately before the final closing
parenthesis — so the two texts differ exactly by that block. -/
theorem format_problem_roundtrip (locations : List Location) (items : List Item)
    (initial_state goals selected : List (String × String)) :
    (selected = [] →
        (format_problem locations items initial_state goals selected).1
          = (format_problem locations items initial_state goals selected).2)
  ∧ (selected ≠ [] →
        (format_problem locations items initial_state goals selected).2
            = problem_body locations items initial_state goals ++ ") \n"
      ∧ (format_problem locations items initial_state goals selected).1
            = problem_body locations items initial_state goals
                ++ constraints_block selected ++ ") \n"
      ∧ (format_problem locations items initial_state goals selected).1
            ≠ (format_problem locations items initial_state goals selected).2) := by
  constructor
  · intro hsel
    simp [format_problem, hsel]
  · intro hsel
    have hne : ¬ selected.isEmpty := by simpa [List.isEmpty_iff] using hsel
    refine ⟨rfl, by simp [format_problem, hne, String.append_assoc], ?_⟩
    simp only [format_problem, if_neg hne]
    intro hcontra
    have hlen := congrArg String.length hcontra
    simp only [String.length_append] at hlen
    have hpos : 0 < (constraints_block selected).length := by
      simp only [constraints_block, String.length_append]
      have h5 : ("  ) \n").length = 5 := rfl
      omega
    omega

/-- Witness for `format_problem_roundtrip`: with one selected constraint the
with-constraints text is the body plus the constraints block plus the final
closing, and differs from the without-constraints text. -/
theorem format_problem_roundtrip_w :
    ([dont_go_near_item catI] ≠ ([] : List (String × String)))
  ∧ (format_problem [officeL] [catI] [] [] [dont_go_near_item catI]).1
        = problem_body [officeL] [catI] [] []
            ++ constraints_block [dont_go_near_item catI] ++ ") \n" :=
  ⟨by decide,
   ((format_problem_roundtrip [officeL] [catI] [] [] [dont_go_near_item catI]).2
      (by decide)).2.1⟩

/-- Claim C6 (code bug).  The co-transport template
`dont_take_item_to_location_with_another` is claimed (by the spec, and by
the natural-language gloss the function itself emits) to forbid the robot
from holding item A exactly at the location where item B currently is, so a
state in which the robot holds A somewhere *other* than B's location should
satisfy the constraint.  The generated formula, however, omits any
`robot-at` atom: parsed into the formula language (the token streams of the
generated string and of the rendered abstract syntax coincide), it
evaluates to *false* on the state where the robot is at the office holding
the chefs-knife while the cat is at the kitchen, whereas the formula the
spec describes (`dont_take_item_to_location_with_another_spec`, with the
`(robot-at ?l)` conjunct) evaluates to true there.  The generated gloss —
checked verbatim below — contradicts the generated formula: the code drops
the `(robot-at ?l)` conjunct present in the analogous
`dont_go_near_item` template. -/
theorem dont_take_with_another_ignores_robot_location :
    tokenize (dont_take_item_to_location_with_another chefsKnifeI catI).1
        = tokenize (renderQF (dont_take_item_to_location_with_another_f chefsKnifeI catI))
  ∧ (dont_take_item_to_location_with_another chefsKnifeI catI).2
        = "The robot should never be holding the chefs-knife at a location where the cat is."
  ∧ evalQF ["office", "kitchen"] holding_at_other_location_state
        (dont_take_item_to_location_with_another_f chefsKnifeI catI) = false
  ∧ evalQF ["office", "kitchen"] holding_at_other_location_state
        (dont_take_item_to_location_with_another_spec chefsKnifeI catI) = true :=
  ⟨by decide, by decide, by decide, by decide⟩

/-- Claim C5: in the serialized `(:objects ...)` section, a sampled item's
name appears in the `electrical-item` typed list iff the item carries the
Electrical property, appears in the plain `item` typed list iff it does not
(so each item is in exactly one of the two lists), and when a category is
empty no line of the section carries that category's typed-list marker at
all — the line is omitted entirely, not emitted as an empty declaration.
Item names are assumed pairwise distinct, as they are for any sample drawn
from the catalog. -/
theorem objects_section_partition (locations : List Location) (items : List Item)
    (hnd : (items.map Item.name).Nodup) :
    (∀ obj ∈ items,
        (obj.name ∈ electrical_items_names items
           ↔ ItemProperty.ELECTRICAL ∈ obj.properties)
      ∧ (obj.name ∈ non_electrical_items_names items
           ↔ ItemProperty.ELECTRICAL ∉ obj.properties))
  ∧ (electrical_items_names items = [] →
        ∀ l ∈ objects_lines locations items,
          ¬ (" - electrical-item \n".data <:+ l.data))
  ∧ (non_electrical_items_names items = [] →
        ∀ l ∈ objects_lines locations items,
          ¬ (" - item \n".data <:+ l.data)) := by
  refine ⟨?_, ?_, ?_⟩
  · intro obj hobj
    constructor
    · constructor
      · intro hmem
        obtain ⟨it, hit, hname⟩ := List.mem_map.mp hmem
        obtain ⟨hitems, hprop⟩ := List.mem_filter.mp hit
        have heq : it = obj := List.inj_on_of_nodup_map hnd hitems hobj hname
        subst heq
        simpa using hprop
      · intro hprop
        exact List.mem_map_of_mem _ (List.mem_filter.mpr ⟨hobj, by simpa using hprop⟩)
    · constructor
      · intro hmem
        obtain ⟨it, hit, hname⟩ := List.mem_map.mp hmem
        obtain ⟨hitems, hprop⟩ := List.mem_filter.mp hit
        have heq : it = obj := List.inj_on_of_nodup_map hnd hitems hobj hname
        subst heq
        simpa using hprop
      · intro hprop
        exact List.mem_map_of_mem _ (List.mem_filter.mpr ⟨hobj, by simpa using hprop⟩)
  · intro hE l hl
    simp only [objects_lines, hE] at hl
    simp at hl
    rcases hl with hl | ⟨-, hl⟩ <;> subst hl
    · rw [String.data_append]
      exact suffix_mismatch (i := 2) (x := 'm') (y := 'n') _ (by decide) (by decide) (by decide)
    · rw [String.data_append]
      exact suffix_mismatch (i := 6) (x := '-') (y := ' ') _ (by decide) (by decide) (by decide)
  · intro hNE l hl
    simp only [objects_lines, hNE] at hl
    simp at hl
    rcases hl with hl | ⟨-, hl⟩ <;> subst hl
    · rw [String.data_append]
      exact suffix_mismatch (i := 2) (x := 'm') (y := 'n') _ (by decide) (by decide) (by decide)
    · rw [String.data_append]
      exact suffix_mismatch (i := 6) (x := ' ') (y := '-') _ (by decide) (by decide) (by decide)

/-- Witness for `objects_section_partition`: over the sample
[electric-kettle, lego-set] the kettle's name is in the electrical typed
list and the lego set's name is in the plain item list, and not
conversely. -/
theorem objects_section_partition_w :
    ([kettleI, legoI].map Item.name).Nodup
  ∧ kettleI ∈ [kettleI, legoI] ∧ legoI ∈ [kettleI, legoI]
  ∧ (kettleI.name ∈ electrical_items_names [kettleI, legoI]
       ↔ ItemProperty.ELECTRICAL ∈ kettleI.properties)
  ∧ (legoI.name ∈ non_electrical_items_names [kettleI, legoI]
       ↔ ItemProperty.ELECTRICAL ∉ legoI.properties) :=
  ⟨by decide, by decide, by decide,
   ((objects_section_partition [officeL] [kettleI, legoI] (by decide)).1
      kettleI (by decide)).1,
   ((objects_section_partition [officeL] [kettleI, legoI] (by decide)).1
      legoI (by decide)).2⟩

/-- The rendering of the holding-goal formula is exactly the string the
goal sampler emits. -/
theorem holding_goal_render (n : String) :
    renderPF0 (holding_goal_f n)
      = "(or (holding-left " ++ n ++ ") (holding-right " ++ n
          ++ ") (holding-both " ++ n ++ "))" := by
  have e1 : "(or (holding-left " = "(or" ++ " " ++ "(" ++ "holding-left" ++ " " := rfl
  have e2 : ") (holding-right " = ")" ++ " " ++ "(" ++ "holding-right" ++ " " := rfl
  have e3 : ") (holding-both " = ")" ++ " " ++ "(" ++ "holding-both" ++ " " := rfl
  have e4 : "))" = ")" ++ ")" := rfl
  rw [e1, e2, e3, e4]
  simp only [holding_goal_f, renderPF0, renderL, renderArgs, renderT,
    String.append_empty, ← String.append_assoc]

/-- Claim C7: holding-goal items are drawn from the candidate items, which
exclude every item already given a location goal, so the two goal item sets
are disjoint; at most `min(2, |candidates|)` holding goals are produced;
each holding-goal entry appears in the produced goal list as the
disjunctive formula over the three grips, and that formula (read in the
formula language, whose rendering is exactly the emitted string) is
satisfied in a state iff the item is held in the left hand, the right hand,
or both hands. -/
theorem holding_goals_disjoint_and_bounded (locations : List Location)
    (items : List Item) (il : List (String × Location)) (r : GoalRand)
    (hperm : r.holdSampleOrder.Perm (candidate_items items r))
    (hn : r.numHoldingGoals ≤ min 2 (candidate_items items r).length) :
    (∀ x ∈ holding_goal_items r, x ∉ loc_goal_items r)
  ∧ (holding_goal_items r).length ≤ min 2 (candidate_items items r).length
  ∧ (∀ gs, generate_random_goals locations items il r = some gs →
      ∀ x ∈ holding_goal_items r,
        ("(or (holding-left " ++ x.name ++ ") (holding-right " ++ x.name
           ++ ") (holding-both " ++ x.name ++ "))",
         "The robot should be holding the " ++ x.name ++ ".") ∈ gs)
  ∧ (∀ (n : String) (st : List (String × List String)),
        evalPF0 st "" (holding_goal_f n)
          = (decide (("holding-left", [n]) ∈ st)
             || decide (("holding-right", [n]) ∈ st)
             || decide (("holding-both", [n]) ∈ st))
      ∧ renderPF0 (holding_goal_f n)
          = "(or (holding-left " ++ n ++ ") (holding-right " ++ n
              ++ ") (holding-both " ++ n ++ "))") := by
  have hmemc : ∀ x ∈ holding_goal_items r, x ∈ candidate_items items r := by
    intro x hx
    exact hperm.mem_iff.mp (List.take_subset _ _ hx)
  refine ⟨?_, ?_, ?_, ?_⟩
  · intro x hx
    have hc := hmemc x hx
    simpa using (List.mem_filter.mp hc).2
  · have hlen : r.holdSampleOrder.length = (candidate_items items r).length :=
      hperm.length_eq
    rw [holding_goal_items, List.length_take]
    omega
  · intro gs hgs x hx
    have hitems : ¬ items.length = 0 := by
      intro hz
      simp [generate_random_goals, hz] at hgs
    have hlocs : ¬ locations.length = 0 := by
      intro hz
      simp [generate_random_goals, hz] at hgs
    simp only [generate_random_goals, if_neg hitems, if_neg hlocs,
      Option.some.injEq] at hgs
    subst hgs
    refine List.mem_append_left _ (List.mem_append_right _ ?_)
    exact List.mem_map_of_mem _ hx
  · intro n st
    constructor
    · simp [holding_goal_f, evalPF0, evalOrL, substPT, Bool.or_assoc]
    · exact holding_goal_render n

/-- Witness for `holding_goals_disjoint_and_bounded`: items
[chefs-knife, cat, lego-set] with a location goal on the chefs-knife and a
holding goal drawn from the remaining candidates [cat, lego-set]. -/
def goal_rand_w : GoalRand :=
  { numLocGoals := 1
    locSampleOrder := [chefsKnifeI, catI, legoI]
    destChoice := fun _ => officeL
    numPlugGoals := 0
    plugSampleOrder := []
    plugCoin := fun _ => true
    numHoldingGoals := 1
    holdSampleOrder := [legoI, catI]
    robotCoin := false
    robotDest := officeL }

/-- Witness for `holding_goals_disjoint_and_bounded` at a concrete draw:
the holding-goal item (lego-set) is disjoint from the location-goal item
(chefs-knife) and the bound holds. -/
theorem holding_goals_disjoint_and_bounded_w :
    goal_rand_w.holdSampleOrder.Perm
        (candidate_items [chefsKnifeI, catI, legoI] goal_rand_w)
  ∧ goal_rand_w.numHoldingGoals
      ≤ min 2 (candidate_items [chefsKnifeI, catI, legoI] goal_rand_w).length
  ∧ (∀ x ∈ holding_goal_items goal_rand_w, x ∉ loc_goal_items goal_rand_w)
  ∧ (holding_goal_items goal_rand_w).length
      ≤ min 2 (candidate_items [chefsKnifeI, catI, legoI] goal_rand_w).length :=
  ⟨by decide, by decide,
   (holding_goals_disjoint_and_bounded [officeL] [chefsKnifeI, catI, legoI] []
      goal_rand_w (by decide) (by decide)).1,
   (holding_goals_disjoint_and_bounded [officeL] [chefsKnifeI, catI, legoI] []
      goal_rand_w (by decide) (by decide)).2.1⟩

/-- The recognizer for `(robot-at ...)` entries accepts the robot entry. -/
theorem is_robot_at_entry_robot (loc : Location) (d : String) :
    is_robot_at_entry ("(robot-at " ++ loc.name ++ ")", d) = true := by
  simp only [is_robot_at_entry]
  rw [ List.isPrefixOf_iff_prefix]
  simp only [String.data_append, List.append_assoc]
  exact List.prefix_append _ _

/-- The recognizer for `(robot-at ...)` entries rejects item-location entries. -/
theorem is_robot_at_entry_at (a b d : String) :
    is_robot_at_entry ("(at " ++ a ++ " " ++ b ++ ")", d) = false := by
  simp only [is_robot_at_entry]
  rw [Bool.eq_false_iff]
  intro hpre
  rw [ List.isPrefixOf_iff_prefix] at hpre
  simp only [String.data_append, List.append_assoc] at hpre
  exact prefix_mismatch (i := 1) (x := 'r') (y := 'a')
    (by decide) (by decide) (by decide) hpre

/-- The recognizer for `(robot-at ...)` entries rejects plugged-in entries. -/
theorem is_robot_at_entry_plug (a d : String) :
    is_robot_at_entry ("(plugged-in " ++ a ++ ")", d) = false := by
  simp only [is_robot_at_entry]
  rw [Bool.eq_false_iff]
  intro hpre
  rw [ List.isPrefixOf_iff_prefix] at hpre
  simp only [String.data_append, List.append_assoc] at hpre
  exact prefix_mismatch (i := 1) (x := 'r') (y := 'p')
    (by decide) (by decide) (by decide) hpre

/-- Claim C8: every initial state asserts exactly one `(robot-at ...)`
predicate — for a location in the sampled location list — and contains the
entry pairing `(left-hand-empty)` with `(right-hand-empty)`: the robot
always starts with both hands empty, whatever the random draws. -/
theorem initial_state_robot_and_hands (locations : List Location)
    (items : List Item) (robotLoc : Location) (itemLoc : Item → Location)
    (coin : Item → Bool) (h : robotLoc ∈ locations) :
    (generate_random_initial_state locations items robotLoc itemLoc coin).1.countP
        is_robot_at_entry = 1
  ∧ (∃ loc ∈ locations,
        ("(robot-at " ++ loc.name ++ ")", "The robot is at the " ++ loc.name ++ ".")
          ∈ (generate_random_initial_state locations items robotLoc itemLoc coin).1)
  ∧ ("(left-hand-empty) (right-hand-empty)", "The robot's both hands are empty.")
        ∈ (generate_random_initial_state locations items robotLoc itemLoc coin).1 := by
  refine ⟨?_, ⟨robotLoc, h, ?_⟩, ?_⟩
  · simp only [generate_random_initial_state, List.countP_append, List.countP_map]
    have h1 : List.countP is_robot_at_entry
        [("(robot-at " ++ robotLoc.name ++ ")",
          "The robot is at the " ++ robotLoc.name ++ "."),
         ("(left-hand-empty) (right-hand-empty)", "The robot's both hands are empty.")]
        = 1 := by
      have hh : is_robot_at_entry
          ("(left-hand-empty) (right-hand-empty)",
           "The robot's both hands are empty.") = false := by decide
      simp [List.countP_cons, is_robot_at_entry_robot, hh]
    have h2 : List.countP
        (is_robot_at_entry ∘ fun obj =>
          ("(at " ++ obj.name ++ " " ++ (itemLoc obj).name ++ ")",
           "There is a " ++ obj.name ++ " on the " ++ (itemLoc obj).name ++ "."))
        items = 0 := by
      rw [List.countP_eq_zero]
      intro obj _
      simp [is_robot_at_entry_at]
    have h3 : List.countP
        (is_robot_at_entry ∘ fun obj =>
          ("(plugged-in " ++ obj.name ++ ")", "The " ++ obj.name ++ " is plugged in."))
        (items.filter (fun obj =>
          decide (ItemProperty.ELECTRICAL ∈ obj.properties) && coin obj)) = 0 := by
      rw [List.countP_eq_zero]
      intro obj _
      simp [is_robot_at_entry_plug]
    rw [h1, h2, h3]
  · simp [generate_random_initial_state]
  · simp [generate_random_initial_state]

/-- Witness for `initial_state_robot_and_hands` at a concrete draw. -/
theorem initial_state_robot_and_hands_w :
    officeL ∈ [officeL, kitchenL]
  ∧ (generate_random_initial_state [officeL, kitchenL] [kettleI] officeL
        (fun _ => kitchenL) (fun _ => true)).1.countP is_robot_at_entry = 1 :=
  ⟨by decide,
   (initial_state_robot_and_hands [officeL, kitchenL] [kettleI] officeL
      (fun _ => kitchenL) (fun _ => true) (by decide)).1⟩

/-- Claim C9: goal generation fails on an empty item list (the location-goal
count is drawn from `randint(1, len(items))`, which raises for an empty
list); consequently `generate_problem` with `num_items = 0` returns no
instance even though `0` passes the catalog-size check; and every
successfully generated goal list contains at least one location-assignment
goal. -/
theorem generate_random_goals_requires_items :
    (∀ (locations : List Location) (il : List (String × Location)) (r : GoalRand),
        generate_random_goals locations [] il r = none)
  ∧ (∀ (nl : Nat) (k : Int) (r : ProblemRand), generate_problem nl 0 k r = none)
  ∧ (∀ (locations : List Location) (items : List Item)
        (il : List (String × Location)) (r : GoalRand),
        1 ≤ r.numLocGoals → r.locSampleOrder.Perm items →
        (∀ x, r.destChoice x ∈ locations) →
        ∀ gs, generate_random_goals locations items il r = some gs →
        ∃ obj ∈ items, ∃ gl ∈ locations,
          ("(at " ++ obj.name ++ " " ++ gl.name ++ ")",
           "The " ++ obj.name ++ " should be in the " ++ gl.name ++ ".") ∈ gs) := by
  refine ⟨?_, ?_, ?_⟩
  · intro locations il r
    simp [generate_random_goals]
  · intro nl k r
    by_cases h1 : nl > ALL_LOCATIONS.length
    · simp [generate_problem, h1]
    · have h2 : ¬ ((0 : Nat) > ALL_ITEMS.length) := by decide
      simp only [generate_problem, if_neg h1, if_neg h2, List.take_zero]
      rcases hsel : select_constraints
          (generate_safety_constraints (r.locPerm.take nl) [] r.elecPair) k
          r.constrShuffle with _ | sel
      · simp [hsel]
      · simp [hsel, generate_random_goals]
  · intro locations items il r hone hperm hdest gs hgs
    have hitems : ¬ items.length = 0 := by
      intro hz
      simp [generate_random_goals, hz] at hgs
    have hlocs : ¬ locations.length = 0 := by
      intro hz
      simp [generate_random_goals, hz] at hgs
    simp only [generate_random_goals, if_neg hitems, if_neg hlocs,
      Option.some.injEq] at hgs
    subst hgs
    have hpos : 0 < (loc_goal_items r).length := by
      rw [loc_goal_items, List.length_take, hperm.length_eq]
      omega
    obtain ⟨obj, hobj⟩ := List.exists_mem_of_length_pos hpos
    refine ⟨obj, hperm.mem_iff.mp (List.take_subset _ _ hobj),
      r.destChoice obj, hdest obj, ?_⟩
    exact List.mem_append_left _ (List.mem_append_left _
      (List.mem_append_left _ (List.mem_map_of_mem _ hobj)))

/-- A concrete goal draw for the `generate_random_goals_requires_items`
witness: one location goal on the single sampled item. -/
def goal_rand_w9 : GoalRand :=
  { numLocGoals := 1
    locSampleOrder := [catI]
    destChoice := fun _ => officeL
    numPlugGoals := 0
    plugSampleOrder := []
    plugCoin := fun _ => true
    numHoldingGoals := 0
    holdSampleOrder := []
    robotCoin := false
    robotDest := officeL }

/-- Witness for `generate_random_goals_requires_items`: a successful goal
generation over [cat] / [office] whose output contains the location goal. -/
theorem generate_random_goals_requires_items_w :
    1 ≤ goal_rand_w9.numLocGoals
  ∧ generate_random_goals [officeL] [catI] [] goal_rand_w9
      = some [("(at cat office)", "The cat should be in the office.")]
  ∧ ∃ obj ∈ [catI], ∃ gl ∈ [officeL],
      ("(at " ++ obj.name ++ " " ++ gl.name ++ ")",
       "The " ++ obj.name ++ " should be in the " ++ gl.name ++ ".")
        ∈ [("(at cat office)", "The cat should be in the office.")] :=
  ⟨by decide, by decide,
   generate_random_goals_requires_items.2.2 [officeL] [catI] [] goal_rand_w9
     (by decide) (by decide) (fun _ => List.mem_singleton.mpr rfl) _ (by decide)⟩

/-- Claim C10: a negative non-sentinel requested constraint count (for
example `-2`) makes constraint selection fail — `random.sample` is called
with the negative size `min(num_constraints, |applicable|)` and raises —
so `generate_problem` fails rather than returning an empty or capped
constraint set. -/
theorem generate_problem_negative_constraints_fails (nl ni : Nat) (k : Int)
    (r : ProblemRand) (hk : k < 0) (hk1 : k ≠ -1) :
    (∀ (applicable shuffled : List (String × String)),
        select_constraints applicable k shuffled = none)
  ∧ generate_problem nl ni k r = none := by
  have hsel : ∀ (applicable shuffled : List (String × String)),
      select_constraints applicable k shuffled = none := by
    intro app sh
    have hmin : min k (app.length : Int) < 0 :=
      lt_of_le_of_lt (min_le_left k (app.length : Int)) hk
    simp [select_constraints, hk1, hmin]
  refine ⟨hsel, ?_⟩
  by_cases h1 : nl > ALL_LOCATIONS.length
  · simp [generate_problem, h1]
  · by_cases h2 : ni > ALL_ITEMS.length
    · simp [generate_problem, h1, h2]
    · simp only [generate_problem, if_neg h1, if_neg h2, hsel]

/-- A concrete randomness bundle for the `generate_problem` witnesses. -/
def problem_rand_w : ProblemRand :=
  { locPerm := ALL_LOCATIONS
    itemPerm := ALL_ITEMS
    robotLoc := officeL
    itemLoc := fun _ => officeL
    initPlugCoin := fun _ => false
    elecPair := (kettleI, drillI)
    constrShuffle := []
    goalRand := goal_rand_w9 }

/-- Witness for `generate_problem_negative_constraints_fails` at the
concrete count `-2`. -/
theorem generate_problem_negative_constraints_fails_w :
    ((-2 : Int) < 0) ∧ ((-2 : Int) ≠ -1)
  ∧ generate_problem 2 2 (-2) problem_rand_w = none :=
  ⟨by decide, by decide,
   (generate_problem_negative_constraints_fails 2 2 (-2) problem_rand_w
      (by decide) (by decide)).2⟩

end GenInstances
